import Mathlib

/-!
Shallow embedding of the notebook code in the normalizing-flows example
repository: the Real NVP notebook (training a flow on an image-derived
density with the forward KLD) and the neural-spline-flow notebook
(training on a Gaussian/von-Mises target with the reverse KLD).

Floating-point tensor entries are modelled by the type FP below: a finite
value carries a rational, and the special values NaN, +inf and -inf are
explicit constructors.  The library calls that produce loss values and
samples are opaque from this repository's point of view and are passed in
as function parameters.
-/

namespace NFSpec

/-- Model of a floating-point scalar: a finite rational or one of the
special values NaN, positive infinity, negative infinity. -/
inductive FP where
  | fin : ℚ → FP
  | posInf : FP
  | negInf : FP
  | nan : FP
deriving DecidableEq, Repr

/-- torch.isnan on a scalar. -/
def FP.isNan : FP → Bool
  | .nan => true
  | _ => false

/-- torch.isinf on a scalar (true for both infinities). -/
def FP.isInf : FP → Bool
  | .posInf => true
  | .negInf => true
  | _ => false

/-- torch.isfinite on a scalar. -/
def FP.isFinite : FP → Bool
  | .fin _ => true
  | _ => false

/-- torch.exp on the value model.  The behaviour on the special values is
fixed (exp NaN = NaN, exp +inf = +inf, exp -inf = 0); on finite values the
real exponential is abstracted by a parameter e mapping the finite input
to the finite result. -/
def fexp (e : ℚ → ℚ) : FP → FP
  | .fin q => .fin (e q)
  | .posInf => .posInf
  | .negInf => .fin 0
  | .nan => .nan

/-- The masked assignment prob[torch.isnan(prob)] = 0 applied to a grid of
values (flattened to a list): every entry for which torch.isnan holds is
replaced by zero, every other entry is kept. -/
def maskedFillNan (xs : List FP) : List FP :=
  xs.map (fun x => if x.isNan then FP.fin 0 else x)

/-- The plotting pipeline used before all density renderings except the
target-prior heatmap of the Real NVP notebook:
prob = torch.exp(log_prob); prob[torch.isnan(prob)] = 0. -/
def plotProb (e : ℚ → ℚ) (logProb : List FP) : List FP :=
  maskedFillNan (logProb.map (fexp e))

/-- The pipeline of the target-prior heatmap in the Real NVP notebook
(first plot cell): prob = torch.exp(log_prob) with no replacement at all. -/
def priorPlotProb (e : ℚ → ℚ) (logProb : List FP) : List FP :=
  logProb.map (fexp e)

/-- The pipeline as the spec claims it: every non-finite entry of the
exponentiated grid is replaced by zero.  Stated for comparison with
plotProb, which is what the code does. -/
def specPlotProb (e : ℚ → ℚ) (logProb : List FP) : List FP :=
  (logProb.map (fexp e)).map (fun x => if x.isFinite then x else FP.fin 0)

/-- Where the batch a loss is computed from comes from: drawn from the
target distribution (nfm.p.sample in the Real NVP notebook) or generated
synthetically by the flow itself (inside reverse_kld in the NSF notebook). -/
inductive BatchSource where
  | targetDist : BatchSource
  | flowSynthetic : BatchSource
deriving DecidableEq, Repr

/-- Observable state carried across one training loop.  The model
parameters are abstract (type P); grad is the gradient buffer cleared by
optimizer.zero_grad and filled by loss.backward; lossHist mirrors the
np.append loss history; batchSources records, per iteration, where the
batch of that iteration's loss came from; plotIters records the iterations
at which the in-loop density plot ran; saveFiles records the checkpoint
numbers (it + 1) of model.save calls; schedSteps counts scheduler.step
calls. -/
structure TrainState (P : Type) where
  params : P
  grad : Option FP
  lossHist : List FP
  batchSources : List BatchSource
  plotIters : List ℕ
  saveFiles : List ℕ
  schedSteps : ℕ
deriving DecidableEq, Repr

/-- Fresh state at loop entry: loss_hist = np.array([]), no gradient, no
plots, no checkpoints, scheduler not yet stepped. -/
def initState {P : Type} (p0 : P) : TrainState P :=
  { params := p0, grad := none, lossHist := [], batchSources := [],
    plotIters := [], saveFiles := [], schedSteps := 0 }

/-- optimizer.zero_grad(). -/
def zeroGrad {P : Type} (s : TrainState P) : TrainState P :=
  { s with grad := none }

/-- loss.backward() followed by optimizer.step(): the gradient buffer is
filled from the loss and the parameters are updated by the abstract
optimizer update step. -/
def backwardAndStep {P : Type} (step : P → FP → P) (loss : FP)
    (s : TrainState P) : TrainState P :=
  { s with grad := some loss, params := step s.params loss }

/-- loss_hist = np.append(loss_hist, loss...): one scalar appended. -/
def appendLoss {P : Type} (loss : FP) (s : TrainState P) : TrainState P :=
  { s with lossHist := s.lossHist ++ [loss] }

/-- Record where the batch of the current loss computation was drawn from. -/
def recordBatch {P : Type} (src : BatchSource) (s : TrainState P) :
    TrainState P :=
  { s with batchSources := s.batchSources ++ [src] }

/-- The in-loop density plot: log_prob on the fixed grid, exp, NaN fill,
pcolormesh.  Only the fact that the plot happened at iteration it is
recorded. -/
def plotModel {P : Type} (it : ℕ) (s : TrainState P) : TrainState P :=
  { s with plotIters := s.plotIters ++ [it] }

/-- Writing the checkpoint file named by the pattern applied to (it + 1),
as in model.save of the NSF notebook. -/
def saveCheckpoint {P : Type} (it : ℕ) (s : TrainState P) : TrainState P :=
  { s with saveFiles := s.saveFiles ++ [it + 1] }

/-- scheduler.step(). -/
def schedulerStep {P : Type} (s : TrainState P) : TrainState P :=
  { s with schedSteps := s.schedSteps + 1 }

/-- The guarded update of the NSF notebook:
if not (torch.isnan(loss) or torch.isinf(loss)) then loss.backward() and
optimizer.step(), else nothing. -/
def optStepIfFinite {P : Type} (step : P → FP → P) (loss : FP)
    (s : TrainState P) : TrainState P :=
  if !(loss.isNan || loss.isInf) then backwardAndStep step loss s else s

/-- The periodic branch of the NSF loop: when (it + 1) is a multiple of
show_iter, plot the learned model and save a checkpoint. -/
def showBranchNsf {P : Type} (showIter it : ℕ) (s : TrainState P) :
    TrainState P :=
  if (it + 1) % showIter = 0 then saveCheckpoint it (plotModel it s) else s

/-- The periodic branch of the Real NVP loop: when (it + 1) is a multiple
of show_iter, plot the learned model (no checkpoint is written). -/
def showBranchRealnvp {P : Type} (showIter it : ℕ) (s : TrainState P) :
    TrainState P :=
  if (it + 1) % showIter = 0 then plotModel it s else s

/-- Modelled from the spec: the library method reverse_kld called by the
NSF notebook lives in the package code of this repository, which is not
under src/; per the spec, the reverse-KL objective computes its loss on a
batch generated synthetically by the flow itself, not drawn from the
target. -/
def reverseKldBatchSource : BatchSource := BatchSource.flowSynthetic

/-- One iteration of the NSF notebook training loop (reverse KLD).  The
loss sequence reverseKld abstracts loss = model.reverse_kld(num_samples)
at each iteration.  Statements in source order: optimizer.zero_grad();
loss computation (batch recorded); the finiteness-guarded backward and
optimizer step; loss_hist append; the show_iter branch with plot and
model.save; scheduler.step(). -/
def nsfIter {P : Type} (step : P → FP → P) (showIter : ℕ)
    (reverseKld : ℕ → FP) (it : ℕ) (s : TrainState P) : TrainState P :=
  schedulerStep
    (showBranchNsf showIter it
      (appendLoss (reverseKld it)
        (optStepIfFinite step (reverseKld it)
          (recordBatch reverseKldBatchSource (zeroGrad s)))))

/-- One iteration of the Real NVP notebook training loop (forward KLD).
pSample abstracts x = nfm.p.sample(num_samples).double(), a draw from the
target distribution p; forwardKld abstracts loss = nfm.forward_kld(x).
Statements in source order: optimizer.zero_grad(); the target-distribution
draw (batch recorded); loss.backward(); optimizer.step() — both
unconditional; loss_hist append; the show_iter plot branch.  There is no
scheduler and no model.save in this loop. -/
def realnvpIter {P B : Type} (step : P → FP → P) (showIter : ℕ)
    (pSample : ℕ → B) (forwardKld : B → FP) (it : ℕ) (s : TrainState P) :
    TrainState P :=
  showBranchRealnvp showIter it
    (appendLoss (forwardKld (pSample it))
      (backwardAndStep step (forwardKld (pSample it))
        (recordBatch BatchSource.targetDist (zeroGrad s))))

/-- for it in range(maxIter): s = body it s, folded left over
0, 1, ..., maxIter - 1. -/
def runLoop {S : Type} (body : ℕ → S → S) (maxIter : ℕ) (s : S) : S :=
  (List.range maxIter).foldl (fun acc it => body it acc) s

theorem runLoop_zero {S : Type} (body : ℕ → S → S) (s : S) :
    runLoop body 0 s = s := rfl

theorem runLoop_succ {S : Type} (body : ℕ → S → S) (n : ℕ) (s : S) :
    runLoop body (n + 1) s = body n (runLoop body n s) := by
  simp [runLoop, List.range_succ]

section IterLemmas

variable {P B : Type} (step : P → FP → P) (showIter : ℕ)
variable (reverseKld : ℕ → FP) (pSample : ℕ → B) (forwardKld : B → FP)
variable (it : ℕ) (s : TrainState P)

theorem nsfIter_params :
    (nsfIter step showIter reverseKld it s).params =
      if (reverseKld it).isNan || (reverseKld it).isInf then s.params
      else step s.params (reverseKld it) := by
  unfold nsfIter schedulerStep showBranchNsf appendLoss optStepIfFinite
    backwardAndStep recordBatch zeroGrad saveCheckpoint plotModel
  rcases h : (reverseKld it).isNan || (reverseKld it).isInf with _ | _ <;>
    simp [h] <;> split <;> rfl

theorem nsfIter_grad :
    (nsfIter step showIter reverseKld it s).grad =
      if (reverseKld it).isNan || (reverseKld it).isInf then none
      else some (reverseKld it) := by
  unfold nsfIter schedulerStep showBranchNsf appendLoss optStepIfFinite
    backwardAndStep recordBatch zeroGrad saveCheckpoint plotModel
  rcases h : (reverseKld it).isNan || (reverseKld it).isInf with _ | _ <;>
    simp [h] <;> split <;> rfl

theorem nsfIter_lossHist :
    (nsfIter step showIter reverseKld it s).lossHist =
      s.lossHist ++ [reverseKld it] := by
  unfold nsfIter schedulerStep showBranchNsf appendLoss optStepIfFinite
    backwardAndStep recordBatch zeroGrad saveCheckpoint plotModel
  split <;> split <;> rfl

theorem nsfIter_batchSources :
    (nsfIter step showIter reverseKld it s).batchSources =
      s.batchSources ++ [BatchSource.flowSynthetic] := by
  unfold nsfIter schedulerStep showBranchNsf appendLoss optStepIfFinite
    backwardAndStep recordBatch zeroGrad saveCheckpoint plotModel
    reverseKldBatchSource
  split <;> split <;> rfl

theorem nsfIter_plotIters :
    (nsfIter step showIter reverseKld it s).plotIters =
      s.plotIters ++ (if (it + 1) % showIter = 0 then [it] else []) := by
  unfold nsfIter schedulerStep showBranchNsf appendLoss optStepIfFinite
    backwardAndStep recordBatch zeroGrad saveCheckpoint plotModel
  split <;> split <;> simp

theorem nsfIter_saveFiles :
    (nsfIter step showIter reverseKld it s).saveFiles =
      s.saveFiles ++ (if (it + 1) % showIter = 0 then [it + 1] else []) := by
  unfold nsfIter schedulerStep showBranchNsf appendLoss optStepIfFinite
    backwardAndStep recordBatch zeroGrad saveCheckpoint plotModel
  split <;> split <;> simp

theorem nsfIter_schedSteps :
    (nsfIter step showIter reverseKld it s).schedSteps = s.schedSteps + 1 := by
  unfold nsfIter schedulerStep showBranchNsf appendLoss optStepIfFinite
    backwardAndStep recordBatch zeroGrad saveCheckpoint plotModel
  split <;> split <;> rfl

theorem realnvpIter_params :
    (realnvpIter step showIter pSample forwardKld it s).params =
      step s.params (forwardKld (pSample it)) := by
  unfold realnvpIter showBranchRealnvp appendLoss backwardAndStep
    recordBatch zeroGrad plotModel
  split <;> rfl

theorem realnvpIter_grad :
    (realnvpIter step showIter pSample forwardKld it s).grad =
      some (forwardKld (pSample it)) := by
  unfold realnvpIter showBranchRealnvp appendLoss backwardAndStep
    recordBatch zeroGrad plotModel
  split <;> rfl

theorem realnvpIter_lossHist :
    (realnvpIter step showIter pSample forwardKld it s).lossHist =
      s.lossHist ++ [forwardKld (pSample it)] := by
  unfold realnvpIter showBranchRealnvp appendLoss backwardAndStep
    recordBatch zeroGrad plotModel
  split <;> rfl

theorem realnvpIter_batchSources :
    (realnvpIter step showIter pSample forwardKld it s).batchSources =
      s.batchSources ++ [BatchSource.targetDist] := by
  unfold realnvpIter showBranchRealnvp appendLoss backwardAndStep
    recordBatch zeroGrad plotModel
  split <;> rfl

theorem realnvpIter_plotIters :
    (realnvpIter step showIter pSample forwardKld it s).plotIters =
      s.plotIters ++ (if (it + 1) % showIter = 0 then [it] else []) := by
  unfold realnvpIter showBranchRealnvp appendLoss backwardAndStep
    recordBatch zeroGrad plotModel
  split <;> simp

theorem realnvpIter_saveFiles :
    (realnvpIter step showIter pSample forwardKld it s).saveFiles =
      s.saveFiles := by
  unfold realnvpIter showBranchRealnvp appendLoss backwardAndStep
    recordBatch zeroGrad plotModel
  split <;> rfl

theorem realnvpIter_schedSteps :
    (realnvpIter step showIter pSample forwardKld it s).schedSteps =
      s.schedSteps := by
  unfold realnvpIter showBranchRealnvp appendLoss backwardAndStep
    recordBatch zeroGrad plotModel
  split <;> rfl

end IterLemmas

section LoopLemmas

variable {P B : Type} (step : P → FP → P) (showIter : ℕ)
variable (reverseKld : ℕ → FP) (pSample : ℕ → B) (forwardKld : B → FP)
variable (s : TrainState P)

theorem runLoop_nsf_lossHist (n : ℕ) :
    (runLoop (nsfIter step showIter reverseKld) n s).lossHist =
      s.lossHist ++ (List.range n).map reverseKld := by
  induction n with
  | zero => simp [runLoop_zero]
  | succ n ih =>
      rw [runLoop_succ, nsfIter_lossHist, ih, List.range_succ]
      simp

theorem runLoop_realnvp_lossHist (n : ℕ) :
    (runLoop (realnvpIter step showIter pSample forwardKld) n s).lossHist =
      s.lossHist ++ (List.range n).map (fun it => forwardKld (pSample it)) := by
  induction n with
  | zero => simp [runLoop_zero]
  | succ n ih =>
      rw [runLoop_succ, realnvpIter_lossHist, ih, List.range_succ]
      simp

theorem runLoop_nsf_saveFiles (n : ℕ) :
    (runLoop (nsfIter step showIter reverseKld) n s).saveFiles =
      s.saveFiles ++
        (((List.range n).filter (fun it => (it + 1) % showIter == 0)).map
          (fun it => it + 1)) := by
  induction n with
  | zero => simp [runLoop_zero]
  | succ n ih =>
      rw [runLoop_succ, nsfIter_saveFiles, ih, List.range_succ,
        List.filter_append, List.map_append, List.append_assoc]
      rcases h : (n + 1) % showIter with _ | k <;> simp [h]

theorem runLoop_realnvp_saveFiles (n : ℕ) :
    (runLoop (realnvpIter step showIter pSample forwardKld) n s).saveFiles =
      s.saveFiles := by
  induction n with
  | zero => simp [runLoop_zero]
  | succ n ih => rw [runLoop_succ, realnvpIter_saveFiles, ih]

theorem runLoop_nsf_plotIters (n : ℕ) :
    (runLoop (nsfIter step showIter reverseKld) n s).plotIters =
      s.plotIters ++
        ((List.range n).filter (fun it => (it + 1) % showIter == 0)) := by
  induction n with
  | zero => simp [runLoop_zero]
  | succ n ih =>
      rw [runLoop_succ, nsfIter_plotIters, ih, List.range_succ,
        List.filter_append, List.append_assoc]
      rcases h : (n + 1) % showIter with _ | k <;> simp [h]

theorem runLoop_realnvp_plotIters (n : ℕ) :
    (runLoop (realnvpIter step showIter pSample forwardKld) n s).plotIters =
      s.plotIters ++
        ((List.range n).filter (fun it => (it + 1) % showIter == 0)) := by
  induction n with
  | zero => simp [runLoop_zero]
  | succ n ih =>
      rw [runLoop_succ, realnvpIter_plotIters, ih, List.range_succ,
        List.filter_append, List.append_assoc]
      rcases h : (n + 1) % showIter with _ | k <;> simp [h]

theorem runLoop_nsf_schedSteps (n : ℕ) :
    (runLoop (nsfIter step showIter reverseKld) n s).schedSteps =
      s.schedSteps + n := by
  induction n with
  | zero => simp [runLoop_zero]
  | succ n ih => rw [runLoop_succ, nsfIter_schedSteps, ih, Nat.add_assoc]

theorem runLoop_nsf_batchSources (n : ℕ) :
    (runLoop (nsfIter step showIter reverseKld) n s).batchSources =
      s.batchSources ++ List.replicate n BatchSource.flowSynthetic := by
  induction n with
  | zero => simp [runLoop_zero]
  | succ n ih =>
      rw [runLoop_succ, nsfIter_batchSources, ih, List.append_assoc,
        ← List.replicate_succ']

theorem runLoop_realnvp_batchSources (n : ℕ) :
    (runLoop (realnvpIter step showIter pSample forwardKld) n s).batchSources =
      s.batchSources ++ List.replicate n BatchSource.targetDist := by
  induction n with
  | zero => simp [runLoop_zero]
  | succ n ih =>
      rw [runLoop_succ, realnvpIter_batchSources, ih, List.append_assoc,
        ← List.replicate_succ']

theorem runLoop_realnvp_schedSteps (n : ℕ) :
    (runLoop (realnvpIter step showIter pSample forwardKld) n s).schedSteps =
      s.schedSteps := by
  induction n with
  | zero => simp [runLoop_zero]
  | succ n ih => rw [runLoop_succ, realnvpIter_schedSteps, ih]

end LoopLemmas

/-- Channel slice arr[:, :, 0] of a decoded image held as a 3-D
(rows x columns x channels) nested list: every pixel is replaced by its
first channel. -/
def channel0 (a : List (List (List ℚ))) : List (List ℚ) :=
  a.map (fun row => row.map (fun px => px.getD 0 0))

/-- Elementwise 1 - m on a 2-D array. -/
def oneMinus (m : List (List ℚ)) : List (List ℚ) :=
  m.map (fun row => row.map (fun v => 1 - v))

/-- img = 1 - plt.imread(...)[:, :, 0] of the Real NVP notebook, applied
to the decoded image array a. -/
def imgOfDecoded (a : List (List (List ℚ))) : List (List ℚ) :=
  oneMinus (channel0 a)

/-- b = torch.tensor([0, 1]) of the Real NVP notebook. -/
def maskB : List ℤ := [0, 1]

/-- The coupling masks produced by the flows-construction loop of the Real
NVP notebook: for i in range(K), mask b when i % 2 == 0 and mask 1 - b
otherwise (the mask handed to nf.flows.MaskedAffineFlow at layer i). -/
def flowMasks (K : ℕ) : List (List ℤ) :=
  (List.range K).map
    (fun i => if i % 2 = 0 then maskB else maskB.map (fun x => 1 - x))

/-- Optimizer update used for concrete instantiations: it counts how many
times the parameters were updated. -/
def stepCount : ℕ → FP → ℕ := fun p _ => p + 1

theorem getD_map_of_lt {α β : Type} (f : α → β) (l : List α) (n : ℕ)
    (d : β) (d' : α) (h : n < l.length) :
    (l.map f).getD n d = f (l.getD n d') := by
  induction l generalizing n with
  | nil => simp at h
  | cons x xs ih =>
      cases n with
      | zero => rfl
      | succ n =>
          simp only [List.map_cons, List.getD_cons_succ]
          exact ih n (by simpa using h)

theorem imgOfDecoded_eq_map (a : List (List (List ℚ))) :
    imgOfDecoded a =
      a.map (fun row => row.map (fun px => 1 - px.getD 0 0)) := by
  simp [imgOfDecoded, oneMinus, channel0, List.map_map, Function.comp]

/-! Claim theorems. -/

/-- Claim C1, counterexample: the claim says every training loop skips the
optimizer step on a non-finite loss, but the Real NVP (forward KLD)
training loop performs the parameter update unconditionally: one iteration
with loss NaN still applies the optimizer step (the update counter moves
from 0 to 1). -/
theorem C1_counterexample :
    (FP.nan.isNan || FP.nan.isInf) = true ∧
    (realnvpIter stepCount 2000 (fun _ => (0 : ℚ)) (fun _ => FP.nan) 0
      (initState 0)).params = 1 ∧
    (initState (0 : ℕ)).params = 0 := by
  refine ⟨rfl, ?_, rfl⟩
  rfl

/-- Claim C1 (amended): only the NSF (reverse KLD) training loop guards
the optimizer step: there, back-propagation and the parameter update
happen exactly when the loss is neither NaN nor infinite; the Real NVP
(forward KLD) loop back-propagates and steps the optimizer
unconditionally, whatever the loss value. -/
theorem C1_step_skipping {P B : Type} (step : P → FP → P) (showIter : ℕ)
    (reverseKld : ℕ → FP) (pSample : ℕ → B) (forwardKld : B → FP)
    (it : ℕ) (s : TrainState P) :
    ((nsfIter step showIter reverseKld it s).params =
      if (reverseKld it).isNan || (reverseKld it).isInf then s.params
      else step s.params (reverseKld it)) ∧
    ((nsfIter step showIter reverseKld it s).grad =
      if (reverseKld it).isNan || (reverseKld it).isInf then none
      else some (reverseKld it)) ∧
    ((realnvpIter step showIter pSample forwardKld it s).params =
      step s.params (forwardKld (pSample it))) ∧
    ((realnvpIter step showIter pSample forwardKld it s).grad =
      some (forwardKld (pSample it))) :=
  ⟨nsfIter_params step showIter reverseKld it s,
   nsfIter_grad step showIter reverseKld it s,
   realnvpIter_params step showIter pSample forwardKld it s,
   realnvpIter_grad step showIter pSample forwardKld it s⟩

/-- Claim C2, counterexample: the claim says every training loop writes a
checkpoint whenever (it + 1) is a multiple of its show_iter constant, but
the Real NVP training loop contains no model.save call at all: at the
qualifying iteration it = 1999 (show_iter = 2000, as in the notebook) the
set of written checkpoint files stays empty. -/
theorem C2_counterexample :
    (1999 + 1) % 2000 = 0 ∧
    (realnvpIter stepCount 2000 (fun _ => (0 : ℚ)) (fun _ => FP.fin 0) 1999
      (initState 0)).saveFiles = [] := by
  exact ⟨rfl, rfl⟩

/-- Claim C2 (amended): only the NSF training loop serializes checkpoints,
and it does so exactly at the iterations it with (it + 1) a multiple of
show_iter (file number it + 1); the Real NVP training loop writes no
checkpoint file at any iteration. -/
theorem C2_checkpoints {P B : Type} (step : P → FP → P) (showIter : ℕ)
    (reverseKld : ℕ → FP) (pSample : ℕ → B) (forwardKld : B → FP)
    (n : ℕ) (s : TrainState P) :
    ((runLoop (nsfIter step showIter reverseKld) n s).saveFiles =
      s.saveFiles ++
        (((List.range n).filter (fun it => (it + 1) % showIter == 0)).map
          (fun it => it + 1))) ∧
    ((runLoop (realnvpIter step showIter pSample forwardKld) n s).saveFiles
      = s.saveFiles) :=
  ⟨runLoop_nsf_saveFiles step showIter reverseKld s n,
   runLoop_realnvp_saveFiles step showIter pSample forwardKld s n⟩

/-- Claim C3, counterexample: the claim says every non-finite entry of the
exponentiated grid is replaced by zero before rendering, but the code only
replaces NaN entries (prob[torch.isnan(prob)] = 0): a +infinity log-density
exponentiates to +infinity, which is non-finite and is kept, not zeroed;
moreover the target-prior heatmap of the Real NVP notebook applies no
replacement at all, so even a NaN is rendered there. -/
theorem C3_counterexample :
    FP.posInf.isFinite = false ∧
    plotProb id [FP.posInf] = [FP.posInf] ∧
    specPlotProb id [FP.posInf] = [FP.fin 0] ∧
    priorPlotProb id [FP.nan] = [FP.nan] ∧
    FP.posInf ≠ FP.fin 0 ∧
    FP.nan ≠ FP.fin 0 := by
  refine ⟨rfl, rfl, rfl, rfl, by decide, by decide⟩

/-- Claim C3 (amended): before every density rendering except the
target-prior heatmap of the Real NVP notebook, the plotted grid equals the
elementwise exponential of the log-density with exactly the NaN entries
replaced by zero — non-finite entries that are not NaN (+infinity) are
kept — and the Real NVP target-prior heatmap plots the raw exponential
with no replacement. -/
theorem C3_plot_nan_fill (e : ℚ → ℚ) (logProb : List FP) :
    (plotProb e logProb = logProb.map (fun lp =>
      if (fexp e lp).isNan then FP.fin 0 else fexp e lp)) ∧
    (priorPlotProb e logProb = logProb.map (fexp e)) := by
  constructor
  · simp only [plotProb, maskedFillNan, List.map_map]
    rfl
  · rfl

/-- Claim C4: in both training loops one scalar loss is appended to the
loss history in every iteration, whether or not the optimizer step was
taken (the loss sequence is arbitrary here, so this covers non-finite
losses), and after max_iter iterations started from the empty history the
history has length max_iter. -/
theorem C4_lossHist_length {P B : Type} (step : P → FP → P) (showIter : ℕ)
    (reverseKld : ℕ → FP) (pSample : ℕ → B) (forwardKld : B → FP)
    (it n : ℕ) (s : TrainState P) (p0 : P) :
    ((nsfIter step showIter reverseKld it s).lossHist =
      s.lossHist ++ [reverseKld it]) ∧
    ((realnvpIter step showIter pSample forwardKld it s).lossHist =
      s.lossHist ++ [forwardKld (pSample it)]) ∧
    ((runLoop (nsfIter step showIter reverseKld) n
      (initState p0)).lossHist.length = n) ∧
    ((runLoop (realnvpIter step showIter pSample forwardKld) n
      (initState p0)).lossHist.length = n) := by
  refine ⟨nsfIter_lossHist step showIter reverseKld it s,
    realnvpIter_lossHist step showIter pSample forwardKld it s, ?_, ?_⟩
  · rw [runLoop_nsf_lossHist]
    simp [initState]
  · rw [runLoop_realnvp_lossHist]
    simp [initState]

/-- Claim C5: in every iteration of the Real NVP (forward KLD) loop the
loss batch is drawn from the target distribution (x = nfm.p.sample), and
in every iteration of the NSF (reverse KLD) loop the batch is generated
synthetically by the flow inside reverse_kld, not drawn from the target. -/
theorem C5_batch_sources {P B : Type} (step : P → FP → P) (showIter : ℕ)
    (reverseKld : ℕ → FP) (pSample : ℕ → B) (forwardKld : B → FP)
    (n : ℕ) (p0 : P) :
    ((runLoop (realnvpIter step showIter pSample forwardKld) n
      (initState p0)).batchSources =
        List.replicate n BatchSource.targetDist) ∧
    ((runLoop (nsfIter step showIter reverseKld) n
      (initState p0)).batchSources =
        List.replicate n BatchSource.flowSynthetic) := by
  constructor
  · rw [runLoop_realnvp_batchSources]
    simp [initState]
  · rw [runLoop_nsf_batchSources]
    simp [initState]

/-- Claim C6: in both training loops the in-loop density plot runs exactly
at the iterations it with (it + 1) a multiple of show_iter, and at no
other iteration. -/
theorem C6_plot_iterations {P B : Type} (step : P → FP → P) (showIter : ℕ)
    (reverseKld : ℕ → FP) (pSample : ℕ → B) (forwardKld : B → FP)
    (n : ℕ) (p0 : P) :
    ((runLoop (nsfIter step showIter reverseKld) n
      (initState p0)).plotIters =
        (List.range n).filter (fun it => (it + 1) % showIter == 0)) ∧
    ((runLoop (realnvpIter step showIter pSample forwardKld) n
      (initState p0)).plotIters =
        (List.range n).filter (fun it => (it + 1) % showIter == 0)) := by
  constructor
  · rw [runLoop_nsf_plotIters]
    simp [initState]
  · rw [runLoop_realnvp_plotIters]
    simp [initState]

/-- Claim C7: the array handed to the image-based target distribution in
the Real NVP notebook is two-dimensional, with the same row and column
extents as the decoded image, and every entry equals one minus the first
channel of the corresponding decoded pixel. -/
theorem C7_image_intensity (a : List (List (List ℚ))) (i j : ℕ)
    (hi : i < a.length) (hj : j < (a.getD i []).length) :
    (imgOfDecoded a).length = a.length ∧
    ((imgOfDecoded a).getD i []).length = (a.getD i []).length ∧
    ((imgOfDecoded a).getD i []).getD j 0 =
      1 - ((a.getD i []).getD j []).getD 0 0 := by
  rw [imgOfDecoded_eq_map]
  refine ⟨by simp, ?_, ?_⟩
  · rw [getD_map_of_lt _ a i [] [] hi]
    simp
  · rw [getD_map_of_lt _ a i [] [] hi,
      getD_map_of_lt _ (a.getD i []) j 0 [] hj]

/-- Claim C7, witness: the theorem applied to a concrete 1 x 2 x 2 decoded
image at pixel (0, 0). -/
theorem C7_witness :
    (imgOfDecoded [[[0, 5], [1]]]).length =
      ([[[0, 5], [1]]] : List (List (List ℚ))).length ∧
    ((imgOfDecoded [[[0, 5], [1]]]).getD 0 []).length =
      (([[[0, 5], [1]]] : List (List (List ℚ))).getD 0 []).length ∧
    ((imgOfDecoded [[[0, 5], [1]]]).getD 0 []).getD 0 0 =
      1 - ((([[[0, 5], [1]]] : List (List (List ℚ))).getD 0 []).getD 0
        []).getD 0 0 :=
  C7_image_intensity [[[0, 5], [1]]] 0 0 (by decide) (by decide)

/-- Claim C8: the coupling masks of the K = 32 Real NVP layers alternate —
layer i gets mask [0, 1] for even i and [1, 0] for odd i — every two
consecutive masks are complementary (they sum elementwise to [1, 1]), and
each of the two mask patterns occurs in exactly 16 of the 32 layers. -/
theorem C8_alternating_masks :
    (∀ i, i < 32 → (flowMasks 32).getD i [] =
      (if i % 2 = 0 then [0, 1] else [1, 0])) ∧
    (∀ i, i < 31 →
      List.zipWith (fun x y => x + y) ((flowMasks 32).getD i [])
        ((flowMasks 32).getD (i + 1) []) = [1, 1]) ∧
    ((flowMasks 32).count [0, 1] = 16) ∧
    ((flowMasks 32).count [1, 0] = 16) := by
  decide

/-- Claim C8, witness: the first conjunct of the theorem applied at the
concrete layer index 3. -/
theorem C8_witness :
    (flowMasks 32).getD 3 [] = (if 3 % 2 = 0 then [0, 1] else [1, 0]) :=
  C8_alternating_masks.1 3 (by decide)

/-- Claim C9: in the NSF (reverse KLD) training loop the learning-rate
scheduler is stepped exactly once per iteration, unconditionally — the
loss sequence is arbitrary here, so this covers iterations whose
non-finite loss skipped the optimizer step — and after the loop the
scheduler has advanced exactly max_iter times. -/
theorem C9_scheduler_steps {P : Type} (step : P → FP → P) (showIter : ℕ)
    (reverseKld : ℕ → FP) (it n : ℕ) (s : TrainState P) (p0 : P) :
    ((nsfIter step showIter reverseKld it s).schedSteps =
      s.schedSteps + 1) ∧
    ((runLoop (nsfIter step showIter reverseKld) n
      (initState p0)).schedSteps = n) := by
  refine ⟨nsfIter_schedSteps step showIter reverseKld it s, ?_⟩
  rw [runLoop_nsf_schedSteps]
  simp [initState]

/-- Claim C10, counterexample: the claim says an NSF iteration with a
non-finite loss changes nothing observable except appending the loss to
the history, but such an iteration still steps the scheduler: with a NaN
loss the scheduler count moves from 0 to 1. -/
theorem C10_counterexample :
    (FP.nan.isNan || FP.nan.isInf) = true ∧
    (nsfIter stepCount 2000 (fun _ => FP.nan) 0 (initState 0)).schedSteps
      = 1 ∧
    (initState (0 : ℕ)).schedSteps = 0 := by
  refine ⟨rfl, ?_, rfl⟩
  rfl

/-- Claim C10 (amended): an NSF iteration whose loss is non-finite leaves
the model parameters unchanged and its gradient buffer cleared, and
besides appending the (non-finite) loss to the history it still steps the
scheduler and, when (it + 1) is a multiple of show_iter, still plots the
density and writes a checkpoint. -/
theorem C10_skipped_iteration {P : Type} (step : P → FP → P)
    (showIter : ℕ) (reverseKld : ℕ → FP) (it : ℕ) (s : TrainState P)
    (h : ((reverseKld it).isNan || (reverseKld it).isInf) = true) :
    ((nsfIter step showIter reverseKld it s).params = s.params) ∧
    ((nsfIter step showIter reverseKld it s).grad = none) ∧
    ((nsfIter step showIter reverseKld it s).lossHist =
      s.lossHist ++ [reverseKld it]) ∧
    ((nsfIter step showIter reverseKld it s).schedSteps =
      s.schedSteps + 1) ∧
    ((nsfIter step showIter reverseKld it s).plotIters =
      s.plotIters ++ (if (it + 1) % showIter = 0 then [it] else [])) ∧
    ((nsfIter step showIter reverseKld it s).saveFiles =
      s.saveFiles ++ (if (it + 1) % showIter = 0 then [it + 1] else [])) := by
  refine ⟨?_, ?_, nsfIter_lossHist step showIter reverseKld it s,
    nsfIter_schedSteps step showIter reverseKld it s,
    nsfIter_plotIters step showIter reverseKld it s,
    nsfIter_saveFiles step showIter reverseKld it s⟩
  · rw [nsfIter_params, if_pos h]
  · rw [nsfIter_grad, if_pos h]

/-- Claim C10, witness: the first conjunct of the amended theorem at a
concrete NaN-loss iteration. -/
theorem C10_witness :
    (nsfIter stepCount 2000 (fun _ => FP.nan) 0 (initState 0)).params =
      (initState (0 : ℕ)).params :=
  (C10_skipped_iteration stepCount 2000 (fun _ => FP.nan) 0 (initState 0)
    (by decide)).1

end NFSpec
